import Mathlib

/-!
# Verification of the insight-NEWS ingestion-and-orchestration core

Shallow embedding of the `israel-news-module` Python sources:

* `processor/summarizer.py` — keyword categorizer and per-article processing
  (`NewsProcessor.categorize_article`, `NewsProcessor.process_article`);
* `ingestor/scraper.py` — rate limiter (`NewsScraper._rate_limit`), the
  URL-based deduplication loop of `fetch_all_sectors` / `fetch_by_category`,
  and the generic web-page fetch (`NewsScraper.fetch_from_website`);
* `pipeline.py` — the orchestrator (`NewsPipeline.run_full_pipeline`,
  `NewsPipeline.save_to_database`).

External collaborators (OpenAI summarization, `hashlib.sha256`,
`urllib.parse.urljoin`, image hosting, the SQL store) are modelled as
function parameters, exactly at the interface the core consumes them.
Wall-clock time is modelled by rational-valued seconds passed explicitly.
-/

namespace InsightNews

/-! ## Data model

A Python article dict, at the set of keys the embedded code reads.
A key that is absent in the dict is represented by the default value the
code's `dict.get` would substitute (the empty string). -/

structure RawArticle where
  title : String
  description : String
  content : String
  url : String
  urlToImage : String
  publishedAt : String
  source : String
  external_id : String
  /-- the sector tag attached by the Ingestor (`article['sector'] = sector`) -/
  sector : String
deriving DecidableEq

/-- Result shape of `NewsProcessor.summarize_article` (the OpenAI collaborator
wrapper; it catches every exception, so it is a total function). -/
structure Summary where
  bullets : List String
  sentiment : String
  importance : String
deriving DecidableEq

/-- Output dict of `NewsProcessor.process_article` (summarizer.py lines 169-182). -/
structure ProcessedArticle where
  id : Option String
  title : String
  description : String
  url : String
  image_url : String
  published_at : String
  source : String
  category : String
  summary : List String
  sentiment : String
  importance : String
  processed_at : String
deriving DecidableEq

/-! ## CategoryRouter (`NewsProcessor.categorize_article`)

Python substring membership `kw in text` on strings, written out on
character lists. -/

/-- `subHead kw t` : does `kw` occur at the head of `t`? -/
def subHead : List Char → List Char → Bool
  | [], _ => true
  | _ :: _, [] => false
  | c :: cs, d :: ds => c == d && subHead cs ds

/-- `subAny kw t` : does `kw` occur as a contiguous substring of `t`?
(Python `kw in t`.) -/
def subAny : List Char → List Char → Bool
  | kw, [] => subHead kw []
  | kw, c :: cs => subHead kw (c :: cs) || subAny kw cs

/-- Python `kw in text` for strings. -/
def strIn (kw text : String) : Bool :=
  subAny kw.toList text.toList

/-- Python `str.lower()` character by character (ASCII range, which is all
the embedded configuration and inputs contain). -/
def pyLower (s : String) : String :=
  String.mk (s.toList.map Char.toLower)

/-- Python `str.strip()` (as used by `get_text(strip=True)`): drop leading
and trailing whitespace. -/
def pyStrip (s : String) : String :=
  String.mk
    (((s.toList.dropWhile Char.isWhitespace).reverse.dropWhile
      Char.isWhitespace).reverse)

/-- `NewsProcessor.sector_keywords` (summarizer.py lines 43-48), in the
declared (dict insertion) order. -/
def sectorKeywords : List (String × List String) :=
  [("farming", ["agriculture", "farming", "farmers", "crops", "livestock",
                "agtech", "agricultural"]),
   ("tech", ["technology", "tech", "startup", "innovation", "AI",
             "cybersecurity", "software", "digital"]),
   ("politics", ["politics", "government", "Knesset", "election", "policy",
                 "minister", "parliament"]),
   ("hospitality", ["hotel", "tourism", "restaurant", "hospitality",
                    "travel", "accommodation"])]

/-- The `for sector, keywords in self.sector_keywords.items()` loop of
`categorize_article`: first sector with a keyword occurring in `text`,
else `'general'`. -/
def categorizeGo (text : String) : List (String × List String) → String
  | [] => "general"
  | (sector, kws) :: rest =>
      if kws.any (fun kw => strIn kw text) then sector else categorizeGo text rest

/-- `NewsProcessor.categorize_article` (summarizer.py lines 50-67):
`text = f"{title} {description or ''}".lower()`, then the first-match loop.
`description` is `Option String` because the Python parameter defaults to
`None` (`description or ''` maps both `None` and `''` to `''`). -/
def categorizeArticle (title : String) (description : Option String) : String :=
  categorizeGo (pyLower (title ++ " " ++ description.getD "")) sectorKeywords

/-- The claim's own formulation of the categorizer: lower-case the (space-)
concatenation of title and description and take the first sector, in the
configuration's declared iteration order, having at least one keyword that is
a substring of the lowered text; default `'general'`. Stated independently
via `List.find?` to compare against the loop translated from the source. -/
def claimCategorize (title : String) (description : Option String) : String :=
  let text := pyLower (title ++ " " ++ description.getD "")
  ((sectorKeywords.find? (fun p => p.2.any (fun kw => strIn kw text))).map
    Prod.fst).getD "general"

theorem categorizeGo_eq_find (text : String) :
    ∀ l : List (String × List String),
      categorizeGo text l =
        ((l.find? (fun p => p.2.any (fun kw => strIn kw text))).map
          Prod.fst).getD "general"
  | [] => rfl
  | (sector, kws) :: rest => by
      by_cases h : kws.any (fun kw => strIn kw text) = true
      · simp [categorizeGo, List.find?, h]
      · simp only [Bool.not_eq_true] at h
        simp [categorizeGo, List.find?, h, categorizeGo_eq_find text rest]

/-! ## Enrichment (`NewsProcessor.process_article`)

`summarize_article` (lines 69-147) wraps the OpenAI collaborator and catches
every exception, so from the caller's side it is a total function
`(title, description, content) -> Summary`; it is passed in as a parameter.
`hashlib.sha256(...).hexdigest()` is a fixed pure function of the input
string, passed in as the parameter `sha256hex`; `datetime.now().isoformat()`
is the parameter `now`. -/

/-- `NewsProcessor.process_article` (summarizer.py lines 149-182). -/
def processArticle (sha256hex : String → String)
    (summarize : String → String → String → Summary)
    (now : String) (article : RawArticle) : ProcessedArticle :=
  let title := article.title
  let description := article.description
  let content := article.content
  let category := categorizeArticle title (some description)
  let summary := summarize title description content
  { id := if article.url ≠ "" then some (sha256hex article.url) else none
    title := title
    description := description
    url := article.url
    image_url := article.urlToImage
    published_at := article.publishedAt
    source := article.source
    category := category
    summary := summary.bullets
    sentiment := summary.sentiment
    importance := summary.importance
    processed_at := now }

/-! ## Deduplicator

The dedup loop of `NewsScraper.fetch_all_sectors` (scraper.py lines 350-359),
repeated verbatim in `fetch_by_category` (lines 398-407):

```
seen_urls = set()
unique_articles = []
for article in articles:
    url = article.get('url', '')
    if url and url not in seen_urls:
        seen_urls.add(url)
        unique_articles.append(article)
```

The `seen_urls` set is modelled as the list of urls added so far. -/

def dedupeAux (seen : List String) : List RawArticle → List RawArticle
  | [] => []
  | a :: rest =>
      if a.url ≠ "" && !(seen.contains a.url) then
        a :: dedupeAux (a.url :: seen) rest
      else
        dedupeAux seen rest

/-- The scraper's URL-based deduplication of one sector's article list. -/
def scraperDedupe (articles : List RawArticle) : List RawArticle :=
  dedupeAux [] articles

/-- Generic first-occurrence deduplication by an identity-key function, as
the spec words it: keep the first occurrence of each non-empty key, preserve
first-seen order, drop every article whose key is empty. -/
def keyDedupeAux (key : RawArticle → String) (seen : List String) :
    List RawArticle → List RawArticle
  | [] => []
  | a :: rest =>
      if key a = "" then keyDedupeAux key seen rest
      else if seen.contains (key a) then keyDedupeAux key seen rest
      else a :: keyDedupeAux key (key a :: seen) rest

def keyDedupe (key : RawArticle → String) (articles : List RawArticle) :
    List RawArticle :=
  keyDedupeAux key [] articles

/-- The claim's identity key: `url` if non-empty, else `external_id`. -/
def claimKey (a : RawArticle) : String :=
  if a.url ≠ "" then a.url else a.external_id

/-- Deduplication as the claim describes it. -/
def claimDedupe (articles : List RawArticle) : List RawArticle :=
  keyDedupe claimKey articles

/-! ## RateLimiter (`NewsScraper._rate_limit`, scraper.py lines 98-121)

Wall-clock time is modelled by rational-valued seconds (the epoch of
`time.time()` and naive local `datetime.now()` are identified; the embedded
code only ever takes differences and midnight boundaries of one of them).
`time.sleep(d)` advances the clock by exactly `d`; everything else runs
instantaneously. The mutable instance state is: -/

structure RateState where
  /-- `self.daily_request_count` -/
  dailyCount : Nat
  /-- `self.daily_reset_time` (seconds) -/
  dailyResetTime : ℚ
  /-- `self.last_request_time` (seconds) -/
  lastRequestTime : ℚ
deriving DecidableEq

/-- `self.__init__` state (scraper.py lines 47-53): `last_request_time = 0`,
`daily_request_count = 0`, `daily_reset_time = datetime.now()`. -/
def initRateState (t0 : ℚ) : RateState :=
  { dailyCount := 0, dailyResetTime := t0, lastRequestTime := 0 }

/-- `datetime.now().replace(hour=0, minute=0, second=0) + timedelta(days=1)`
at time `t`: the start of `t`'s day plus one day, retaining the sub-second
(microsecond) part which `replace` does not clear. -/
def nextMidnight (t : ℚ) : ℚ :=
  86400 * ((⌊t / 86400⌋ : ℤ) + 1) + (t - (⌊t⌋ : ℤ))

/-- `NewsScraper._rate_limit` run at entry time `now`; returns the new
instance state and the time at which the call returns (after its sleeps).
`(now - daily_reset_time).days >= 1` is floored division as in
`datetime.timedelta.days`. -/
def rateLimit (maxDaily : Nat) (delay : ℚ) (s : RateState) (now : ℚ) :
    RateState × ℚ :=
  -- reset daily counter when a full day has elapsed since the last reset
  let count := if (⌊(now - s.dailyResetTime) / 86400⌋ : ℤ) ≥ 1 then 0
    else s.dailyCount
  let resetTime := if (⌊(now - s.dailyResetTime) / 86400⌋ : ℤ) ≥ 1 then now
    else s.dailyResetTime
  -- daily limit reached: sleep until the next midnight, then reset
  let atLimit := count ≥ maxDaily
  let now1 := if atLimit then nextMidnight now else now
  let count1 := if atLimit then 0 else count
  let resetTime1 := if atLimit then now1 else resetTime
  -- inter-request delay: sleep for exactly the remaining time
  let t := if now1 - s.lastRequestTime < delay then s.lastRequestTime + delay
    else now1
  ({ dailyCount := count1 + 1, dailyResetTime := resetTime1,
     lastRequestTime := t }, t)

/-- Default configuration: `self.request_delay = 1.0`. -/
def defaultDelay : ℚ := 1

/-- Default configuration: `self.max_daily_requests = 100`. -/
def defaultMaxDaily : Nat := 100

/-- A tight sequence of `n` rate-limited calls in one control flow, each
entered at the instant the previous one returned; yields the list of
completion times in order. -/
def acquireTimes (maxDaily : Nat) (delay : ℚ) :
    Nat → RateState → ℚ → List ℚ
  | 0, _, _ => []
  | n + 1, s, t =>
      let r := rateLimit maxDaily delay s t
      r.2 :: acquireTimes maxDaily delay n r.1 r.2

/-! ## Generic-page fetch (`NewsScraper.fetch_from_website`, scraper.py
lines 241-301)

The parsed HTML page is modelled as a tree of elements and text nodes
(what BeautifulSoup exposes of it); `urllib.parse.urljoin` is an external
library function and is passed in as the parameter `urljoin`. -/

inductive HNode where
  | elem (tag : String) (attrs : List (String × String)) (children : List HNode)
  | text (s : String)

def HNode.children : HNode → List HNode
  | .elem _ _ c => c
  | .text _ => []

def HNode.tag : HNode → String
  | .elem t _ _ => t
  | .text _ => ""

/-- `element.get(name, '')` — attribute lookup with default. -/
def HNode.attrD (n : HNode) (name : String) : String :=
  match n with
  | .elem _ attrs _ => (attrs.lookup name).getD ""
  | .text _ => ""

/-- does the element carry the attribute at all? (`find('a', href=True)`) -/
def HNode.hasAttr (n : HNode) (name : String) : Bool :=
  match n with
  | .elem _ attrs _ => (attrs.lookup name).isSome
  | .text _ => false

mutual

/-- `soup.find_all('article')`: all `article` elements of the subtree rooted
at the node (the node itself included), in document (preorder) order. -/
def findArticles : HNode → List HNode
  | .text _ => []
  | .elem tag attrs children =>
      (if tag = "article" then [HNode.elem tag attrs children] else []) ++
        findArticlesList children

def findArticlesList : List HNode → List HNode
  | [] => []
  | n :: ns => findArticles n ++ findArticlesList ns

end

mutual

/-- `element.find(pred)`: first descendant (the element itself excluded)
satisfying the predicate, in document order; `findDesc` searches a children
list. -/
def findDesc (p : HNode → Bool) : List HNode → Option HNode
  | [] => none
  | n :: ns =>
      match findDescNode p n with
      | some r => some r
      | none => findDesc p ns

def findDescNode (p : HNode → Bool) : HNode → Option HNode
  | .text _ => none
  | .elem tag attrs children =>
      if p (HNode.elem tag attrs children) then
        some (HNode.elem tag attrs children)
      else findDesc p children

end

mutual

/-- `element.get_text(strip=True)`: the concatenation of the stripped text
fragments of the subtree. -/
def getTextStrip : HNode → String
  | .text s => pyStrip s
  | .elem _ _ children => getTextStripList children

def getTextStripList : List HNode → String
  | [] => ""
  | n :: ns => getTextStrip n ++ getTextStripList ns

end

/-- `soup.title.string`: the string of a tag — its sole text child,
recursing through a sole element child; `None` otherwise. -/
def nodeString : HNode → Option String
  | .text s => some s
  | .elem _ _ [c] => nodeString c
  | .elem _ _ _ => none

/-- `title_elem = article_elem.find(['h1', 'h2', 'h3', 'a'])`. -/
def titleElemOf (el : HNode) : Option HNode :=
  findDesc (fun n => ["h1", "h2", "h3", "a"].contains n.tag) el.children

/-- the `title` variable of the loop body (scraper.py line 267). -/
def candidateTitle (el : HNode) : String :=
  match titleElemOf el with
  | some t => getTextStrip t
  | none => ""

/-- the `link` variable before absolutization (scraper.py lines 269-274). -/
def candidateRawLink (el : HNode) : String :=
  match titleElemOf el with
  | some t =>
      if t.tag = "a" then t.attrD "href"
      else
        match findDesc (fun n => n.tag = "a" && n.hasAttr "href") el.children with
        | some a => a.attrD "href"
        | none => ""
  | none =>
      match findDesc (fun n => n.tag = "a" && n.hasAttr "href") el.children with
      | some a => a.attrD "href"
      | none => ""

/-- the `link` variable after `if link and not link.startswith('http'):
link = urljoin(url, link)` (scraper.py lines 276-279). -/
def candidateLink (urljoin : String → String → String) (pageUrl : String)
    (el : HNode) : String :=
  let link := candidateRawLink el
  if link ≠ "" && !(link.startsWith "http") then urljoin pageUrl link else link

/-- Output dict shape of `fetch_from_website` (scraper.py lines 282-290);
`source` is `soup.title.string if soup.title else url`, which can be the
Python `None` (hence `Option String`). -/
structure WebArticle where
  title : String
  description : String
  content : String
  url : String
  image_url : String
  published_at : String
  source : Option String
deriving DecidableEq

/-- `soup.title.string if soup.title else url` for the whole page. -/
def pageSource (doc : HNode) (pageUrl : String) : Option String :=
  match findDescNode (fun n => n.tag = "title") doc with
  | some t => nodeString t
  | none => some pageUrl

/-- `NewsScraper.fetch_from_website` after the HTTP request succeeded and the
response parsed to `doc`: `soup.find_all('article')[:20]`, then the per-element
loop appending an article exactly when both `title` and `link` are truthy. -/
def fetchFromWebsite (urljoin : String → String → String) (doc : HNode)
    (pageUrl : String) : List WebArticle :=
  ((findArticles doc).take 20).foldl
    (fun articles el =>
      let title := candidateTitle el
      let link := candidateLink urljoin pageUrl el
      if title ≠ "" && link ≠ "" then
        articles ++ [{ title := title, description := "", content := "",
                       url := link, image_url := "", published_at := "",
                       source := pageSource doc pageUrl }]
      else articles)
    []

/-! ## Orchestrator (`NewsPipeline`, pipeline.py)

Collaborators that `_init_components` failed to construct are `None`
(`Option`); a Python exception recovered by a `try/except` is an
`Except.error`. The articles flowing between stages are raw dicts until the
processor stage and processed dicts after it, so the stage-level lists hold
the sum of the two shapes. -/

inductive StageArticle where
  | raw (a : RawArticle)
  | processed (p : ProcessedArticle)
deriving DecidableEq

/-- `article.get('category', 'general')` as `save_to_database` reads it:
raw article dicts carry no `'category'` key (the ingestor tags `'sector'`),
so they fall to the default. -/
def StageArticle.category : StageArticle → String
  | .raw _ => "general"
  | .processed p => p.category

/-- The database collaborator, at the interface `save_to_database` consumes:
the `SELECT id FROM categories WHERE name = %s` query (returning the rows'
`id` column) and `insert_article` on an article whose `category_id` was set.
Either call may raise. -/
structure Database where
  queryCategoryId : String → Except String (List Nat)
  insertArticle : StageArticle → Nat → Except String Nat

structure Pipeline where
  /-- `self.ingestor`, consumed through `fetch_by_category`; raises on
  network/configuration failure. -/
  ingestor : Option (String → Except String (List RawArticle))
  /-- `self.processor`, consumed through `process_article` inside
  `process_batch`; may raise per article. -/
  processor : Option (RawArticle → Except String ProcessedArticle)
  /-- `self.uploader`, consumed through `process_article_images` on the whole
  batch. -/
  uploader : Option (List StageArticle → List StageArticle)
  /-- `self.db` -/
  db : Option Database

/-- `NewsPipeline.run_ingestor` (pipeline.py lines 79-106): for each
category, `fetch_by_category`, an exception yielding an empty list for that
category. `categories or [...]` replaces an empty (or absent) list by the
five defaults. -/
def runIngestor (ingestor : Option (String → Except String (List RawArticle)))
    (categories : List String) : List (String × List RawArticle) :=
  match ingestor with
  | none => []
  | some fetch =>
      let categories := if categories.isEmpty then
        ["farming", "tech", "politics", "hospitality", "general"]
        else categories
      categories.map (fun c =>
        (c, match fetch c with
            | .ok articles => articles
            | .error _ => []))

/-- `NewsProcessor.process_batch` (summarizer.py lines 184-205): per-article
`try/except` skipping the article on error. -/
def processBatch (f : RawArticle → Except String ProcessedArticle)
    (articles : List RawArticle) : List ProcessedArticle :=
  articles.filterMap (fun a => (f a).toOption)

/-- `NewsPipeline.run_processor` (pipeline.py lines 108-126): without a
processor the raw articles pass through unmodified. -/
def runProcessor (processor : Option (RawArticle → Except String ProcessedArticle))
    (articles : List RawArticle) : List StageArticle :=
  match processor with
  | none => articles.map StageArticle.raw
  | some f => (processBatch f articles).map StageArticle.processed

/-- `NewsPipeline.run_asset_automator` (pipeline.py lines 128-146). -/
def runAssetAutomator (uploader : Option (List StageArticle → List StageArticle))
    (articles : List StageArticle) : List StageArticle :=
  match uploader with
  | none => articles
  | some u => u articles

/-- `NewsPipeline.save_to_database` (pipeline.py lines 148-180): per article,
look the category id up, insert when the lookup returned a row; any exception
is caught and the saved counter left unchanged. -/
def saveToDatabase (db : Option Database) (articles : List StageArticle) : Nat :=
  match db with
  | none => 0
  | some db =>
      articles.foldl
        (fun saved article =>
          match db.queryCategoryId article.category with
          | .error _ => saved
          | .ok [] => saved
          | .ok (cid :: _) =>
              match db.insertArticle article cid with
              | .error _ => saved
              | .ok _ => saved + 1)
        0

/-- The run record `results` of `run_full_pipeline` (pipeline.py lines
194-201): per-category `raw_count` and, when the processor stage ran for the
category, `processed_count`. The wall-clock fields (`start_time`,
`end_time`, `duration_seconds`) are real-time metadata outside the embedded
state and carry no claimed property. -/
structure PipelineResults where
  categories : List (String × Nat × Option Nat)
  total_articles : Nat
  processed_articles : Nat
  saved_articles : Nat
  errors : List String
deriving DecidableEq

/-- `NewsPipeline.run_full_pipeline` (pipeline.py lines 182-254). `errors` is
initialized to `[]` and — exactly as in the source — never appended to. -/
def runFullPipeline (p : Pipeline) (categories : List String) (save : Bool) :
    PipelineResults :=
  let categories := if categories.isEmpty then
    ["farming", "tech", "politics", "hospitality", "general"]
    else categories
  -- step 1: ingest
  let rawArticles := runIngestor p.ingestor categories
  let totalArticles := rawArticles.foldl (fun n ca => n + ca.2.length) 0
  -- step 2: process, category by category, skipping empty categories
  let perCategory := rawArticles.map (fun ca =>
    if ca.2.isEmpty then (ca.1, ca.2.length, (none : Option (List StageArticle)))
    else (ca.1, ca.2.length, some (runProcessor p.processor ca.2)))
  let allProcessed := (perCategory.filterMap (fun x => x.2.2)).flatten
  -- step 3: asset automator
  let finalArticles := runAssetAutomator p.uploader allProcessed
  -- step 4: save
  let saved := if save then saveToDatabase p.db finalArticles else 0
  { categories := perCategory.map (fun x => (x.1, x.2.1, x.2.2.map List.length))
    total_articles := totalArticles
    processed_articles := allProcessed.length
    saved_articles := saved
    errors := [] }

/-! ## Claims about the categorizer and the enrichment stage -/

/-- C1: `categorize` lower-cases the (space-separated) concatenation of title
and description and returns the first sector, in the configuration's declared
iteration order, whose keyword set has a keyword occurring as a substring of
the lowered text, defaulting to `'general'`; in particular
`categorize("Israeli farmers boost crop yield", "")` is `farming` and
`categorize("random headline with no sector keywords", "")` is `general`. -/
theorem categorize_first_match_and_examples :
    (∀ title description, categorizeArticle title description =
      claimCategorize title description) ∧
    categorizeArticle "Israeli farmers boost crop yield" (some "") = "farming" ∧
    categorizeArticle "random headline with no sector keywords" (some "") =
      "general" := by
  refine ⟨fun title description => categorizeGo_eq_find _ _, by decide, by decide⟩

/-- C7: the `id` of a processed article is the (deterministic) hash of its
`url` alone: for a non-empty url, `id = sha256hex(url)`, so two processing
runs — with different summarizer outcomes and different processing times —
of articles sharing the same non-empty url produce the same `id`. -/
theorem processArticle_id_deterministic (sha256hex : String → String)
    (sm₁ sm₂ : String → String → String → Summary) (now₁ now₂ : String)
    (a b : RawArticle) (hurl : a.url = b.url) (hne : a.url ≠ "") :
    (processArticle sha256hex sm₁ now₁ a).id = some (sha256hex a.url) ∧
    (processArticle sha256hex sm₁ now₁ a).id =
      (processArticle sha256hex sm₂ now₂ b).id := by
  constructor
  · simp [processArticle, hne]
  · simp [processArticle, hne, hurl ▸ hne, hurl]

/-- Witness for C7 at a concrete input. -/
theorem processArticle_id_deterministic_witness :
    (processArticle (fun s => s ++ "#h")
      (fun _ _ _ => { bullets := [], sentiment := "neutral", importance := "medium" })
      "2026-01-01T00:00:00"
      { title := "t1", description := "d1", content := "c1",
        url := "https://example.com/a", urlToImage := "", publishedAt := "",
        source := "", external_id := "", sector := "tech" }).id =
    some "https://example.com/a#h" :=
  (processArticle_id_deterministic (fun s => s ++ "#h")
    (fun _ _ _ => { bullets := [], sentiment := "neutral", importance := "medium" })
    (fun _ _ _ => { bullets := ["b"], sentiment := "positive", importance := "high" })
    "2026-01-01T00:00:00" "2026-01-02T00:00:00"
    { title := "t1", description := "d1", content := "c1",
      url := "https://example.com/a", urlToImage := "", publishedAt := "",
      source := "", external_id := "", sector := "tech" }
    { title := "t2", description := "d2", content := "c2",
      url := "https://example.com/a", urlToImage := "i", publishedAt := "p",
      source := "s", external_id := "e", sector := "farming" }
    rfl (by decide)).1

/-- C9: the category computed by `process_article` depends only on the
article's title and description; the ingestion-time `sector` tag is never
consulted — the whole output is invariant under changing it — and the output
shape (`ProcessedArticle`) has no sector field to propagate it into. -/
theorem processArticle_category_ignores_sector (sha256hex : String → String)
    (sm : String → String → String → Summary) (now : String) :
    (∀ (a : RawArticle) (s : String),
      processArticle sha256hex sm now { a with sector := s } =
        processArticle sha256hex sm now a) ∧
    (∀ a b : RawArticle, a.title = b.title → a.description = b.description →
      (processArticle sha256hex sm now a).category =
        (processArticle sha256hex sm now b).category) := by
  constructor
  · intro a s
    rfl
  · intro a b ht hd
    simp [processArticle, ht, hd]

/-- Witness for C9 at concrete inputs differing in the sector tag (and in
every field other than title and description). -/
theorem processArticle_category_ignores_sector_witness :
    (processArticle (fun s => s)
      (fun _ _ _ => { bullets := [], sentiment := "neutral", importance := "medium" })
      "2026-01-01T00:00:00"
      { title := "Knesset vote", description := "", content := "c1",
        url := "https://example.com/1", urlToImage := "", publishedAt := "",
        source := "", external_id := "", sector := "farming" }).category =
    (processArticle (fun s => s)
      (fun _ _ _ => { bullets := [], sentiment := "neutral", importance := "medium" })
      "2026-01-01T00:00:00"
      { title := "Knesset vote", description := "", content := "c2",
        url := "https://example.com/2", urlToImage := "i", publishedAt := "p",
        source := "s", external_id := "e", sector := "hospitality" }).category :=
  (processArticle_category_ignores_sector (fun s => s)
    (fun _ _ _ => { bullets := [], sentiment := "neutral", importance := "medium" })
    "2026-01-01T00:00:00").2
    { title := "Knesset vote", description := "", content := "c1",
      url := "https://example.com/1", urlToImage := "", publishedAt := "",
      source := "", external_id := "", sector := "farming" }
    { title := "Knesset vote", description := "", content := "c2",
      url := "https://example.com/2", urlToImage := "i", publishedAt := "p",
      source := "s", external_id := "e", sector := "hospitality" }
    rfl rfl

/-- C10: for an input article whose `url` is absent/empty, `process_article`
still returns a processed article whose `id` is `None`, every other output
field taking its usual source or default. -/
theorem processArticle_empty_url (sha256hex : String → String)
    (sm : String → String → String → Summary) (now : String)
    (a : RawArticle) (h : a.url = "") :
    (processArticle sha256hex sm now a).id = none ∧
    (processArticle sha256hex sm now a).title = a.title ∧
    (processArticle sha256hex sm now a).description = a.description ∧
    (processArticle sha256hex sm now a).url = a.url ∧
    (processArticle sha256hex sm now a).image_url = a.urlToImage ∧
    (processArticle sha256hex sm now a).published_at = a.publishedAt ∧
    (processArticle sha256hex sm now a).source = a.source ∧
    (processArticle sha256hex sm now a).category =
      categorizeArticle a.title (some a.description) ∧
    (processArticle sha256hex sm now a).summary =
      (sm a.title a.description a.content).bullets ∧
    (processArticle sha256hex sm now a).sentiment =
      (sm a.title a.description a.content).sentiment ∧
    (processArticle sha256hex sm now a).importance =
      (sm a.title a.description a.content).importance ∧
    (processArticle sha256hex sm now a).processed_at = now := by
  refine ⟨?_, rfl, rfl, rfl, rfl, rfl, rfl, rfl, rfl, rfl, rfl, rfl⟩
  simp [processArticle, h]

/-- Witness for C10 at a concrete url-less article. -/
theorem processArticle_empty_url_witness :
    (processArticle (fun s => s)
      (fun _ _ _ => { bullets := ["x"], sentiment := "neutral", importance := "low" })
      "2026-01-01T00:00:00"
      { title := "untitled wire item", description := "d", content := "c",
        url := "", urlToImage := "img", publishedAt := "p", source := "s",
        external_id := "guid-7", sector := "general" }).id = none ∧
    (processArticle (fun s => s)
      (fun _ _ _ => { bullets := ["x"], sentiment := "neutral", importance := "low" })
      "2026-01-01T00:00:00"
      { title := "untitled wire item", description := "d", content := "c",
        url := "", urlToImage := "img", publishedAt := "p", source := "s",
        external_id := "guid-7", sector := "general" }).image_url = "img" :=
  ⟨(processArticle_empty_url (fun s => s)
      (fun _ _ _ => { bullets := ["x"], sentiment := "neutral", importance := "low" })
      "2026-01-01T00:00:00"
      { title := "untitled wire item", description := "d", content := "c",
        url := "", urlToImage := "img", publishedAt := "p", source := "s",
        external_id := "guid-7", sector := "general" } rfl).1,
   (processArticle_empty_url (fun s => s)
      (fun _ _ _ => { bullets := ["x"], sentiment := "neutral", importance := "low" })
      "2026-01-01T00:00:00"
      { title := "untitled wire item", description := "d", content := "c",
        url := "", urlToImage := "img", publishedAt := "p", source := "s",
        external_id := "guid-7", sector := "general" } rfl).2.2.2.2.1⟩

/-! ## Claims about the deduplicator -/

theorem dedupeAux_eq_keyDedupeAux :
    ∀ (L : List RawArticle) (seen : List String),
      dedupeAux seen L = keyDedupeAux (fun a => a.url) seen L
  | [], _ => rfl
  | a :: rest, seen => by
      simp only [dedupeAux, keyDedupeAux]
      by_cases h0 : a.url = ""
      · simp [h0, dedupeAux_eq_keyDedupeAux rest seen]
      · by_cases h1 : a.url ∈ seen
        · simp [h0, h1, dedupeAux_eq_keyDedupeAux rest seen]
        · simp [h0, h1, dedupeAux_eq_keyDedupeAux rest seen,
            dedupeAux_eq_keyDedupeAux rest (a.url :: seen)]

theorem dedupeAux_sublist :
    ∀ (L : List RawArticle) (seen : List String),
      (dedupeAux seen L).Sublist L
  | [], _ => List.Sublist.refl []
  | a :: rest, seen => by
      simp only [dedupeAux]
      split
      · exact (dedupeAux_sublist rest (a.url :: seen)).cons₂ a
      · exact (dedupeAux_sublist rest seen).cons a

/-- An article whose url is empty but whose feed-provided `external_id` is
not: the claimed identity key (`url` if non-empty else `external_id`) is
`"feed-guid-1"`, non-empty, so the claimed deduplication keeps the article. -/
def orphanFeedArticle : RawArticle :=
  { title := "feed item without a link", description := "", content := "",
    url := "", urlToImage := "", publishedAt := "", source := "",
    external_id := "feed-guid-1", sector := "general" }

/-- C2, counterexample: the scraper's dedup loop keys on `url` alone and
drops every article with an empty `url`, even when its `external_id` is
non-empty — the claimed url-else-external_id keying disagrees with the code
on `[orphanFeedArticle]` (the code drops it, the claim keeps it). -/
theorem dedupe_not_by_external_id :
    scraperDedupe [orphanFeedArticle] ≠ claimDedupe [orphanFeedArticle] ∧
    scraperDedupe [orphanFeedArticle] = [] ∧
    claimDedupe [orphanFeedArticle] = [orphanFeedArticle] := by
  refine ⟨by decide, by decide, by decide⟩

/-- C2, amended: deduplication keeps the first occurrence of each identity
key and preserves first-seen order (the output is a sublist of the input),
where the identity key of an article is its `url` alone; every article whose
`url` is empty is dropped from the output, its `external_id`
notwithstanding. -/
theorem dedupe_first_by_url (L : List RawArticle) :
    scraperDedupe L = keyDedupe (fun a => a.url) L ∧
    (scraperDedupe L).Sublist L :=
  ⟨dedupeAux_eq_keyDedupeAux L [], dedupeAux_sublist L []⟩

theorem mem_dedupeAux :
    ∀ (L : List RawArticle) (seen : List String) (a : RawArticle),
      a ∈ dedupeAux seen L → a.url ≠ "" ∧ a.url ∉ seen
  | [], _, _, h => by simp [dedupeAux] at h
  | b :: rest, seen, a, h => by
      by_cases h0 : b.url = ""
      · rw [dedupeAux, if_neg (by simp [h0])] at h
        exact mem_dedupeAux rest seen a h
      · by_cases h1 : b.url ∈ seen
        · rw [dedupeAux, if_neg (by simp [h0, h1])] at h
          exact mem_dedupeAux rest seen a h
        · rw [dedupeAux, if_pos (by simp [h0, h1])] at h
          rcases List.mem_cons.mp h with h2 | h2
          · exact h2 ▸ ⟨h0, h1⟩
          · have ih := mem_dedupeAux rest (b.url :: seen) a h2
            exact ⟨ih.1, fun hc => ih.2 (List.mem_cons_of_mem _ hc)⟩

theorem map_url_dedupeAux_nodup :
    ∀ (L : List RawArticle) (seen : List String),
      ((dedupeAux seen L).map (fun a => a.url)).Nodup
  | [], _ => by simp [dedupeAux]
  | b :: rest, seen => by
      by_cases h0 : b.url = ""
      · rw [dedupeAux, if_neg (by simp [h0])]
        exact map_url_dedupeAux_nodup rest seen
      · by_cases h1 : b.url ∈ seen
        · rw [dedupeAux, if_neg (by simp [h0, h1])]
          exact map_url_dedupeAux_nodup rest seen
        · rw [dedupeAux, if_pos (by simp [h0, h1])]
          rw [List.map_cons, List.nodup_cons]
          refine ⟨?_, map_url_dedupeAux_nodup rest (b.url :: seen)⟩
          intro hmem
          rcases List.mem_map.mp hmem with ⟨c, hc, hcu⟩
          have := (mem_dedupeAux rest (b.url :: seen) c hc).2
          exact this (hcu ▸ List.mem_cons_self _ _)

theorem dedupeAux_of_clean :
    ∀ (M : List RawArticle) (seen : List String),
      (∀ a ∈ M, a.url ≠ "" ∧ a.url ∉ seen) →
      ((M.map (fun a => a.url)).Nodup) →
      dedupeAux seen M = M
  | [], _, _, _ => rfl
  | b :: rest, seen, hclean, hnodup => by
      have hb := hclean b (List.mem_cons_self b rest)
      rw [dedupeAux, if_pos (by simp [hb.1, hb.2])]
      rw [List.map_cons, List.nodup_cons] at hnodup
      congr 1
      refine dedupeAux_of_clean rest (b.url :: seen) ?_ hnodup.2
      intro a ha
      refine ⟨(hclean a (List.mem_cons_of_mem b ha)).1, ?_⟩
      intro hc
      rcases List.mem_cons.mp hc with h2 | h2
      · exact hnodup.1 (h2 ▸ List.mem_map.mpr ⟨a, ha, rfl⟩)
      · exact (hclean a (List.mem_cons_of_mem b ha)).2 h2

/-- C6: the scraper's deduplication is idempotent — applying the dedup loop
to its own output returns the output unchanged, for every input sequence. -/
theorem dedupe_idempotent (L : List RawArticle) :
    scraperDedupe (scraperDedupe L) = scraperDedupe L := by
  refine dedupeAux_of_clean (dedupeAux [] L) [] ?_ (map_url_dedupeAux_nodup L [])
  intro a ha
  exact ⟨(mem_dedupeAux L [] a ha).1, by simp⟩

/-! ## Claims about the rate limiter -/

section RateLimiterClaims

attribute [local semireducible] Rat.add Rat.sub Rat.mul Rat.inv

theorem rateLimit_lastRequestTime (maxDaily : Nat) (delay : ℚ)
    (s : RateState) (now : ℚ) :
    (rateLimit maxDaily delay s now).1.lastRequestTime =
      (rateLimit maxDaily delay s now).2 := rfl

/-- The return time of one `_rate_limit` call is at least the previous
`last_request_time` plus the configured delay, whichever path is taken. -/
theorem rateLimit_ret_ge (maxDaily : Nat) (delay : ℚ) (s : RateState)
    (now : ℚ) :
    s.lastRequestTime + delay ≤ (rateLimit maxDaily delay s now).2 := by
  simp only [rateLimit]
  split_ifs with h1 h2 h3 h4 h5 h6 <;> linarith

/-- On the plain path — counter not saturated, day not rolled over, and less
than the configured delay elapsed since the last acquired call —
`_rate_limit` sleeps for exactly the remaining delay and records
`last_request_time + delay` as both its return time and the new
`last_request_time`. -/
theorem rateLimit_plain (maxDaily : Nat) (delay : ℚ) (s : RateState)
    (now : ℚ) (hcount : s.dailyCount < maxDaily)
    (hwindow : (⌊(now - s.dailyResetTime) / 86400⌋ : ℤ) < 1)
    (hlate : now - s.lastRequestTime < delay) :
    (rateLimit maxDaily delay s now).2 = s.lastRequestTime + delay ∧
    (rateLimit maxDaily delay s now).1.lastRequestTime =
      s.lastRequestTime + delay := by
  constructor <;>
    · simp only [rateLimit, ge_iff_le]
      split_ifs <;> first | rfl | omega

set_option maxRecDepth 8000 in
/-- C4, counterexample: with the default configuration (100 requests/day,
1s delay), a scraper constructed at `t₀ = 86200` (200 seconds before
midnight) and issuing rate-limited calls back to back completes 101 calls —
one more than the daily maximum — all inside the interval
`[86200, 86400]` of length 200 seconds, hence inside a single rolling
24-hour window: the 101st call sleeps only to the next midnight (86400),
not to the window boundary `86200 + 86400`. -/
theorem rateLimiter_exceeds_rolling_window :
    (acquireTimes defaultMaxDaily defaultDelay 101
        (initRateState 86200) 86200).length = 101 ∧
    (acquireTimes defaultMaxDaily defaultDelay 101
        (initRateState 86200) 86200).all
      (fun t => decide (86200 ≤ t) && decide (t ≤ 86400)) = true := by
  constructor
  · decide
  · decide

/-- C4, amended: the counter `daily_count` never exceeds the configured
maximum (for a positive maximum); once it has reached the maximum, the next
acquire suspends until the next local midnight — not until the rolling
24-hour window boundary — then resets the counter (the call itself counting
as 1) and proceeds at the later of that midnight and
`last_request_time + delay`. -/
theorem rateLimit_daily_cap_and_midnight_reset (maxDaily : Nat) (delay : ℚ)
    (s : RateState) (now : ℚ) (hmax : 1 ≤ maxDaily) :
    (s.dailyCount ≤ maxDaily →
      (rateLimit maxDaily delay s now).1.dailyCount ≤ maxDaily) ∧
    (maxDaily ≤ s.dailyCount →
      (⌊(now - s.dailyResetTime) / 86400⌋ : ℤ) < 1 →
      (rateLimit maxDaily delay s now).1.dailyCount = 1 ∧
      (rateLimit maxDaily delay s now).1.dailyResetTime = nextMidnight now ∧
      (rateLimit maxDaily delay s now).2 =
        max (nextMidnight now) (s.lastRequestTime + delay)) := by
  constructor
  · intro hcount
    simp only [rateLimit]
    split_ifs <;> omega
  · intro hcount hwindow
    refine ⟨?_, ?_, ?_⟩
    all_goals
      · simp only [rateLimit, ge_iff_le]
        split_ifs <;> try omega
        all_goals try rfl
        all_goals first
          | (rw [max_eq_right]; linarith)
          | (rw [max_eq_left]; linarith)

/-- Witness for C4 (amended) at a concrete saturated state. -/
theorem rateLimit_daily_cap_and_midnight_reset_witness :
    (rateLimit 100 1 (RateState.mk 100 0 0) 10).1.dailyCount = 1 ∧
    (rateLimit 100 1 (RateState.mk 100 0 0) 10).1.dailyResetTime =
      nextMidnight 10 ∧
    (rateLimit 100 1 (RateState.mk 100 0 0) 10).2 =
      max (nextMidnight 10) ((RateState.mk 100 0 0).lastRequestTime + 1) :=
  (rateLimit_daily_cap_and_midnight_reset 100 1 (RateState.mk 100 0 0) 10
    (by decide)).2 (by decide) (by decide)

/-- C5: with the default minimum delay of 1.0 second, two successive
rate-limited calls in one control flow — the second entered at any time
`now₂` at or after the first returned — complete at least 1.0 second apart;
moreover, on the plain path (daily counter not saturated, day not rolled
over) when less than the delay has elapsed since the last acquired call, the
second call suspends for exactly the remaining delay, returning precisely at
`(first return time) + 1` and recording that instant as the new
`last_request_time`. -/
theorem rateLimit_min_spacing (maxDaily : Nat) (s : RateState)
    (now₁ now₂ : ℚ) :
    defaultDelay ≤
      (rateLimit maxDaily defaultDelay
          (rateLimit maxDaily defaultDelay s now₁).1 now₂).2 -
        (rateLimit maxDaily defaultDelay s now₁).2 ∧
    ((rateLimit maxDaily defaultDelay s now₁).1.dailyCount < maxDaily →
      (⌊(now₂ - (rateLimit maxDaily defaultDelay s now₁).1.dailyResetTime) /
          86400⌋ : ℤ) < 1 →
      now₂ - (rateLimit maxDaily defaultDelay s now₁).2 < defaultDelay →
      (rateLimit maxDaily defaultDelay
          (rateLimit maxDaily defaultDelay s now₁).1 now₂).2 =
        (rateLimit maxDaily defaultDelay s now₁).2 + defaultDelay ∧
      (rateLimit maxDaily defaultDelay
          (rateLimit maxDaily defaultDelay s now₁).1 now₂).1.lastRequestTime =
        (rateLimit maxDaily defaultDelay s now₁).2 + defaultDelay) := by
  constructor
  · have h := rateLimit_ret_ge maxDaily defaultDelay
      (rateLimit maxDaily defaultDelay s now₁).1 now₂
    rw [rateLimit_lastRequestTime] at h
    linarith
  · intro hcount hwindow hlate
    rw [← rateLimit_lastRequestTime maxDaily defaultDelay s now₁] at hlate ⊢
    exact rateLimit_plain maxDaily defaultDelay
      (rateLimit maxDaily defaultDelay s now₁).1 now₂ hcount hwindow hlate

/-- Witness for C5 at a concrete pair of back-to-back calls. -/
theorem rateLimit_min_spacing_witness :
    (rateLimit 100 defaultDelay
        (rateLimit 100 defaultDelay (initRateState 1000) 1000).1 1000).2 =
      (rateLimit 100 defaultDelay (initRateState 1000) 1000).2 +
        defaultDelay :=
  ((rateLimit_min_spacing 100 (initRateState 1000) 1000 1000).2
    (by decide) (by decide) (by decide)).1

end RateLimiterClaims

/-! ## Claims about the generic-page fetch -/

theorem foldl_append_filterMap {α β : Type} (p : α → Bool) (mk : α → β) :
    ∀ (l : List α) (acc : List β),
      l.foldl (fun acc x => if p x then acc ++ [mk x] else acc) acc =
        acc ++ l.filterMap (fun x => if p x then some (mk x) else none)
  | [], acc => by simp
  | x :: rest, acc => by
      by_cases h : p x = true <;>
        simp [h, foldl_append_filterMap p mk rest]

/-- The claim's pipeline formulation of the generic-page fetch: up to 20
article elements, each kept iff it has both a non-empty title and a
non-empty (resolved) link. -/
def webFetchSpec (urljoin : String → String → String) (doc : HNode)
    (pageUrl : String) : List WebArticle :=
  ((findArticles doc).take 20).filterMap (fun el =>
    if candidateTitle el ≠ "" && candidateLink urljoin pageUrl el ≠ "" then
      some { title := candidateTitle el, description := "", content := "",
             url := candidateLink urljoin pageUrl el, image_url := "",
             published_at := "", source := pageSource doc pageUrl }
    else none)

/-- A page whose single `article` element has a heading (so a title) but no
hyperlink at all. -/
def headingOnlyDoc : HNode :=
  .elem "html" []
    [.elem "body" []
      [.elem "article" [] [.elem "h2" [] [.text "Knesset passes budget"]]]]

/-- A stand-in absolute-URL resolver for concrete inputs. -/
def cexUrljoin (base rel : String) : String := base ++ rel

/-- C8, counterexample: the single candidate element of `headingOnlyDoc` has
a non-empty title (`"Knesset passes budget"`) and merely lacks a link, yet
`fetch_from_website` drops it (`if title and link` requires both) — refuting
"drops a candidate element only when it lacks both a title and a link". -/
theorem fetchFromWebsite_drops_title_only_candidate :
    (findArticles headingOnlyDoc).map candidateTitle =
      ["Knesset passes budget"] ∧
    fetchFromWebsite cexUrljoin headingOnlyDoc "https://news.example/" = [] := by
  exact ⟨by decide, by decide⟩

/-- C8, amended: the generic-page fetch extracts at most 20 article
elements, takes the first heading-or-link element's text as the title and
the first resolvable hyperlink (resolved against the page URL when not
already absolute) as the url, and keeps a candidate only when it has both a
non-empty title and a non-empty link — dropping it when either is
missing. -/
theorem fetchFromWebsite_spec (urljoin : String → String → String)
    (doc : HNode) (pageUrl : String) :
    fetchFromWebsite urljoin doc pageUrl = webFetchSpec urljoin doc pageUrl ∧
    (fetchFromWebsite urljoin doc pageUrl).length ≤ 20 ∧
    ∀ a ∈ fetchFromWebsite urljoin doc pageUrl, a.title ≠ "" ∧ a.url ≠ "" := by
  have heq : fetchFromWebsite urljoin doc pageUrl =
      webFetchSpec urljoin doc pageUrl := by
    simp only [fetchFromWebsite, webFetchSpec]
    exact (foldl_append_filterMap
      (fun el => candidateTitle el ≠ "" && candidateLink urljoin pageUrl el ≠ "")
      (fun el => ({ title := candidateTitle el, description := "",
                    content := "", url := candidateLink urljoin pageUrl el,
                    image_url := "", published_at := "",
                    source := pageSource doc pageUrl } : WebArticle))
      ((findArticles doc).take 20) []).trans (by simp)
  refine ⟨heq, ?_, ?_⟩
  · rw [heq, webFetchSpec]
    exact le_trans (List.length_filterMap_le _ _) (List.length_take_le _ _)
  · intro a ha
    rw [heq, webFetchSpec] at ha
    rcases List.mem_filterMap.mp ha with ⟨el, _hel, hsome⟩
    by_cases h : (candidateTitle el ≠ "" &&
        candidateLink urljoin pageUrl el ≠ "") = true
    · rw [if_pos h] at hsome
      cases hsome
      simp only [Bool.and_eq_true, decide_eq_true_eq] at h
      exact h
    · rw [if_neg h] at hsome
      exact absurd hsome (by simp)

/-- A page whose single `article` element has both a heading and a linked
anchor. -/
def headingAndLinkDoc : HNode :=
  .elem "html" []
    [.elem "article" []
      [.elem "h2" [] [.text "Budget vote"],
       .elem "a" [("href", "/x")] [.text "more"]]]

/-- The article `fetch_from_website` extracts from `headingAndLinkDoc`. -/
def headingAndLinkArticle : WebArticle :=
  { title := "Budget vote", description := "", content := "",
    url := "https://news.example//x", image_url := "", published_at := "",
    source := some "https://news.example/" }

/-- Witness for C8 (amended) on a concrete page. -/
theorem fetchFromWebsite_spec_witness :
    (fetchFromWebsite cexUrljoin headingAndLinkDoc
      "https://news.example/").length ≤ 20 ∧
    headingAndLinkArticle.title ≠ "" ∧ headingAndLinkArticle.url ≠ "" :=
  ⟨(fetchFromWebsite_spec cexUrljoin headingAndLinkDoc
      "https://news.example/").2.1,
   (fetchFromWebsite_spec cexUrljoin headingAndLinkDoc
      "https://news.example/").2.2 headingAndLinkArticle (by decide)⟩

/-! ## Claims about the orchestrator -/

theorem saveFold_const (db : Database)
    (h : ∀ c, ∃ e, db.queryCategoryId c = Except.error e) :
    ∀ (l : List StageArticle) (acc : Nat),
      l.foldl
        (fun saved article =>
          match db.queryCategoryId article.category with
          | .error _ => saved
          | .ok [] => saved
          | .ok (cid :: _) =>
              match db.insertArticle article cid with
              | .error _ => saved
              | .ok _ => saved + 1)
        acc = acc
  | [], _ => rfl
  | a :: rest, acc => by
      obtain ⟨e, he⟩ := h a.category
      simp only [List.foldl_cons, he]
      exact saveFold_const db h rest acc

/-- With a persistence collaborator whose every category lookup raises — or
with no persistence collaborator at all — `save_to_database` saves
nothing. -/
theorem saveToDatabase_always_failing (db? : Option Database)
    (h : ∀ db, db? = some db → ∀ c, ∃ e,
      db.queryCategoryId c = Except.error e)
    (articles : List StageArticle) :
    saveToDatabase db? articles = 0 := by
  cases db? with
  | none => rfl
  | some db =>
      simp only [saveToDatabase]
      exact saveFold_const db (h db rfl) articles 0

/-- C3, amended: when the persistence collaborator always fails (or is
absent), a full pipeline run with persistence enabled still completes — the
model is total because every stage-level exception in the source is caught —
and reports `saved_articles = 0`; but the run record's `errors` list is
empty, not non-empty: `run_full_pipeline` initializes `results['errors']` to
`[]` and no code path ever appends to it, the recovered errors being only
logged. -/
theorem pipeline_degraded_persistence (p : Pipeline)
    (categories : List String)
    (hdb : ∀ db, p.db = some db → ∀ c, ∃ e,
      db.queryCategoryId c = Except.error e) :
    (runFullPipeline p categories true).saved_articles = 0 ∧
    (runFullPipeline p categories true).errors = [] := by
  constructor
  · simp only [runFullPipeline]
    exact saveToDatabase_always_failing p.db hdb _
  · rfl

/-- The summarizer collaborator's internal-failure default
(summarizer.py lines 139-147). -/
def neutralSummary : Summary :=
  { bullets := [], sentiment := "neutral", importance := "medium" }

/-- A concrete raw tech article, as `fetch_by_category` would tag it. -/
def sampleTechArticle : RawArticle :=
  { title := "Israeli startup raises funding",
    description := "A Tel Aviv tech company secured investment",
    content := "", url := "https://example.com/tech-1", urlToImage := "",
    publishedAt := "", source := "NewsAPI", external_id := "",
    sector := "tech" }

/-- A persistence collaborator whose every call raises. -/
def failingDb : Database :=
  { queryCategoryId := fun _ => Except.error "connection refused",
    insertArticle := fun _ _ => Except.error "connection refused" }

/-- A pipeline whose ingestor and processor work and whose database always
fails. -/
def failingDbPipeline : Pipeline :=
  { ingestor := some (fun _ => Except.ok [sampleTechArticle]),
    processor := some (fun a => Except.ok
      (processArticle (fun s => s) (fun _ _ _ => neutralSummary)
        "2026-01-01T00:00:00" a)),
    uploader := none,
    db := some failingDb }

/-- A pipeline with no persistence collaborator at all. -/
def noDbPipeline : Pipeline :=
  { ingestor := some (fun _ => Except.ok [sampleTechArticle]),
    processor := some (fun a => Except.ok
      (processArticle (fun s => s) (fun _ _ _ => neutralSummary)
        "2026-01-01T00:00:00" a)),
    uploader := none,
    db := none }

/-- C3, counterexample: a run over `["tech"]` with persistence enabled and
an always-failing database completes with one ingested and one processed
article, `saved_articles = 0` — and an *empty* `errors` list, refuting the
claimed non-empty error capture. -/
theorem pipeline_errors_stay_empty :
    (runFullPipeline failingDbPipeline ["tech"] true).saved_articles = 0 ∧
    (runFullPipeline failingDbPipeline ["tech"] true).errors = [] ∧
    (runFullPipeline failingDbPipeline ["tech"] true).total_articles = 1 ∧
    (runFullPipeline failingDbPipeline ["tech"] true).processed_articles
      = 1 := by
  refine ⟨by decide, by decide, by decide, by decide⟩

/-- Witness for C3 (amended) on the collaborator-absent variant. -/
theorem pipeline_degraded_persistence_witness :
    (runFullPipeline noDbPipeline ["tech"] true).saved_articles = 0 ∧
    (runFullPipeline noDbPipeline ["tech"] true).errors = [] :=
  pipeline_degraded_persistence noDbPipeline ["tech"]
    (fun db hdb _c => by cases hdb)

end InsightNews
